import Mathlib

/-!
Verification development for the `unreliablertc` WebRTC data-channel server.

The development shallowly embeds the repository's Rust sources:
* `src/sdp.rs` — SDP offer parsing (`parse_sdp_fields`) at the byte level and
  SDP answer generation (`gen_sdp_response`);
* `src/server.rs` — the server state machine: packet classification
  (`receive_packet`), housekeeping (`timeout_clients`,
  `generate_periodic_packets`), the event loop (`process`, `recvSteps`),
  `send`, and `shutdown`.

Collaborator modules that are not among the sources (`client.rs`, `stun.rs`,
`buffer_pool.rs`, `crypto.rs`) are modelled from the specification; every such
definition carries a doc comment starting with "Modelled from the spec".
Machine integers are embedded as `Nat` (no overflow is relevant on any path
modelled here); fallible operations return `Except`; the UDP socket and the
DTLS/SCTP internals are oracles supplied through an `Env` record.
-/

namespace UnreliableRtc

/-! ## SDP codec (src/sdp.rs) -/

/-- Maximum accumulated line length, `MAX_SDP_LINE` in `parse_sdp_fields`. -/
def MAX_SDP_LINE : Nat := 512

/-- Byte list of an ASCII string (used to spell the attribute prefixes). -/
def strBytes (s : String) : List Nat := s.data.map Char.toNat

/-- The bytes of the prefix `a=ice-ufrag:`. -/
def pfxUfrag : List Nat := strBytes "a=ice-ufrag:"

/-- The bytes of the prefix `a=ice-pwd:`. -/
def pfxPwd : List Nat := strBytes "a=ice-pwd:"

/-- The bytes of the prefix `a=mid:`. -/
def pfxMid : List Nat := strBytes "a=mid:"

/-- Embedding of the local helper `after_prefix` of `parse_sdp_fields`:
the suffix of `s` after `pfx` when `pfx` is a prefix of `s`, else `none`. -/
def restAfter (s pfx : List Nat) : Option (List Nat) :=
  if pfx.isPrefixOf s then some (s.drop pfx.length) else none

/-- One step of the standard UTF-8 validation automaton: the state is `none`
once the input is invalid, or `some (k, lo, hi)` with `k` continuation bytes
still expected and the next byte constrained to `[lo, hi]` (the range is the
usual `80..BF` except right after a lead byte `E0`, `ED`, `F0` or `F4`, which
excludes overlong forms, surrogates and code points above `U+10FFFF`). -/
def utf8Step : Option (Nat × Nat × Nat) → Nat → Option (Nat × Nat × Nat)
  | none, _ => none
  | some (0, _, _), b =>
    if b < 0x80 then some (0, 0x80, 0xBF)
    else if b < 0xC2 then none
    else if b < 0xE0 then some (1, 0x80, 0xBF)
    else if b = 0xE0 then some (2, 0xA0, 0xBF)
    else if b = 0xED then some (2, 0x80, 0x9F)
    else if b < 0xF0 then some (2, 0x80, 0xBF)
    else if b = 0xF0 then some (3, 0x90, 0xBF)
    else if b < 0xF4 then some (3, 0x80, 0xBF)
    else if b = 0xF4 then some (3, 0x80, 0x8F)
    else none
  | some (Nat.succ k, lo, hi), b =>
    if lo ≤ b ∧ b ≤ hi then some (k, 0x80, 0xBF) else none

/-- UTF-8 validity of a byte sequence: the acceptance condition of Rust's
`String::from_utf8` (well-formed sequences, no overlong forms, no surrogate
code points, maximum code point `U+10FFFF`), run as the standard validation
automaton. -/
def utf8Valid (bs : List Nat) : Bool :=
  match bs.foldl utf8Step (some (0, 0x80, 0xBF)) with
  | some (0, _, _) => true
  | _ => false

/-- The record returned by `parse_sdp_fields` (struct `SdpFields` in
`src/sdp.rs`); field values are kept as the extracted byte sequences. -/
structure SdpFields where
  ice_ufrag : List Nat
  ice_passwd : List Nat
  mid : List Nat
deriving DecidableEq, Repr

/-- The loop state of `parse_sdp_fields`: the accumulated `line_buf` and the
three `found_*` options. -/
structure ParseSt where
  lineBuf : List Nat
  found_ice_ufrag : Option (List Nat)
  found_ice_passwd : Option (List Nat)
  found_mid : Option (List Nat)
deriving DecidableEq, Repr

/-- Initial loop state of `parse_sdp_fields`. -/
def initSt : ParseSt :=
  { lineBuf := [], found_ice_ufrag := none, found_ice_passwd := none,
    found_mid := none }

/-- One `if let Some(v) = after_prefix(..)` arm of `parse_sdp_fields`:
on a prefix match the value must pass `String::from_utf8` (the `?` aborts the
whole parse otherwise) and replaces the current `found_*` value. -/
def checkField (cur : Option (List Nat)) (m : Option (List Nat)) :
    Except Unit (Option (List Nat)) :=
  match m with
  | some v => if utf8Valid v then .ok (some v) else .error ()
  | none => .ok cur

/-- One step of the byte loop of `parse_sdp_fields`: on CR or LF a nonempty
`line_buf` is matched against the three attribute prefixes (in source order)
and cleared; any other byte is appended while `line_buf` is shorter than
`MAX_SDP_LINE` and dropped otherwise. -/
def step (st : ParseSt) (c : Nat) : Except Unit ParseSt :=
  if c = 13 ∨ c = 10 then
    if st.lineBuf = [] then .ok st
    else
      match checkField st.found_ice_ufrag (restAfter st.lineBuf pfxUfrag) with
      | .error e => .error e
      | .ok f1 =>
        match checkField st.found_ice_passwd (restAfter st.lineBuf pfxPwd) with
        | .error e => .error e
        | .ok f2 =>
          match checkField st.found_mid (restAfter st.lineBuf pfxMid) with
          | .error e => .error e
          | .ok f3 =>
            .ok { lineBuf := [], found_ice_ufrag := f1,
                  found_ice_passwd := f2, found_mid := f3 }
  else
    .ok (if st.lineBuf.length < MAX_SDP_LINE
         then { st with lineBuf := st.lineBuf ++ [c] } else st)

/-- The byte loop of `parse_sdp_fields`, aborting at the first UTF-8 error
exactly as the `?` operator does. -/
def runParse : ParseSt → List Nat → Except Unit ParseSt
  | st, [] => .ok st
  | st, c :: rest =>
    match step st c with
    | .ok st' => runParse st' rest
    | .error e => .error e

/-- The same line recognition as `step`, with the UTF-8 abort removed: it
records the raw bytes of every recognized attribute value.  Used to express
"the attribute is found on a terminated line" independently of UTF-8
validity. -/
def stepT (st : ParseSt) (c : Nat) : ParseSt :=
  if c = 13 ∨ c = 10 then
    if st.lineBuf = [] then st
    else
      { lineBuf := [],
        found_ice_ufrag :=
          match restAfter st.lineBuf pfxUfrag with
          | some v => some v
          | none => st.found_ice_ufrag,
        found_ice_passwd :=
          match restAfter st.lineBuf pfxPwd with
          | some v => some v
          | none => st.found_ice_passwd,
        found_mid :=
          match restAfter st.lineBuf pfxMid with
          | some v => some v
          | none => st.found_mid }
  else
    if st.lineBuf.length < MAX_SDP_LINE
    then { st with lineBuf := st.lineBuf ++ [c] } else st

/-- The abort-free byte loop (companion of `runParse`). -/
def runT : ParseSt → List Nat → ParseSt
  | st, [] => st
  | st, c :: rest => runT (stepT st c) rest

/-- Embedding of `parse_sdp_fields` (src/sdp.rs): run the byte loop, then
require all three attributes, mirroring the final `match` of the source. -/
def parse_sdp_fields (body : List Nat) : Except Unit SdpFields :=
  match runParse initSt body with
  | .error e => .error e
  | .ok st =>
    match st.found_ice_ufrag, st.found_ice_passwd, st.found_mid with
    | some u, some p, some m =>
      .ok { ice_ufrag := u, ice_passwd := p, mid := m }
    | _, _, _ => .error ()

/-- All three attributes recorded by the abort-free loop. -/
def allFound (st : ParseSt) : Bool :=
  st.found_ice_ufrag.isSome && st.found_ice_passwd.isSome &&
    st.found_mid.isSome

/-- The JSON-escaped line terminator `\r\n` that `gen_sdp_response` embeds in
the SDP string (the Rust source writes `\\r\\n`, i.e. the four characters
backslash-r-backslash-n, because the SDP is inside a JSON string). -/
def crlf : String := "\\r\\n"

/-- Embedding of `gen_sdp_response` (src/sdp.rs): the JSON answer built by the
`format!` call, with the same pieces in the same order.  `rand1` and `rand2`
are the first and second draw of `rng.gen::<u32>()` (evaluated in argument
order at the format site). -/
def gen_sdp_response (rand1 rand2 : Nat) (cert_fingerprint server_ip : String)
    (server_is_ipv6 : Bool) (server_port : Nat)
    (ufrag pass remote_mid : String) : String :=
  let ipv := if server_is_ipv6 then "IP6" else "IP4"
  "\x7b\"answer\":\x7b\"sdp\":\"" ++ "v=0" ++ crlf ++
  "o=FTL " ++ toString rand1 ++ " 1 IN " ++ ipv ++ " " ++ server_ip ++ crlf ++
  "s=-" ++ crlf ++
  "c=IN " ++ ipv ++ " " ++ server_ip ++ crlf ++
  "t=0 0" ++ crlf ++
  "a=ice-lite" ++ crlf ++
  "a=ice-ufrag:" ++ ufrag ++ crlf ++
  "a=ice-pwd:" ++ pass ++ crlf ++
  "m=application " ++ toString server_port ++
    " UDP/DTLS/SCTP webrtc-datachannel" ++ crlf ++
  "a=max-message-size:1160" ++ crlf ++
  "a=fingerprint:sha-256 " ++ cert_fingerprint ++ crlf ++
  "a=ice-options:trickle" ++ crlf ++
  "a=setup:passive" ++ crlf ++
  "a=mid:" ++ remote_mid ++ crlf ++
  "a=sctpmap:" ++ toString server_port ++ " webrtc-datachannel 8000" ++ crlf ++
  "a=max-message-size:1160" ++ crlf ++
  "a=sendrecv" ++ crlf ++
  "a=sctp-port:" ++ toString server_port ++ crlf ++
  "\",\"type\":\"answer\"\x7d,\"candidate\":\x7b\"sdpMLineIndex\":0,\"sdpMid\":\"" ++
    remote_mid ++ "\",\"candidate\":\"" ++ "candidate:1 1 UDP " ++
    toString rand2 ++ " " ++ server_ip ++ " " ++ toString server_port ++
    " typ host\"\x7d\x7d"

/-- Splitter for the JSON-escaped `\r\n` separator, at the character level:
the lines of the embedded SDP string. -/
def splitCrlf : List Char → List (List Char)
  | '\\' :: 'r' :: '\\' :: 'n' :: rest => [] :: splitCrlf rest
  | c :: rest =>
    match splitCrlf rest with
    | [] => [[c]]
    | l :: ls => (c :: l) :: ls
  | [] => [[]]

/-- The first `o=` line (SDP origin line) of a string, if any. -/
def originLineOf (s : String) : Option String :=
  (((splitCrlf s.data).filter (fun l => l.take 2 = ['o', '='])).head?).map
    (fun l => String.mk l)

/-! ## Server model (src/server.rs)

Remote socket addresses are opaque `String` keys (the `ip:port` rendering the
source also uses in the eviction event message).  `HashMap`s become
association lists; `Instant` timestamps become explicit ages in whole seconds
(`x.elapsed()` becomes the stored age, `x = Instant::now()` resets it to 0). -/

/-- A remote socket address, rendered as `ip:port`. -/
abbrev SockAddr := String

/-- `MAX_UDP_PAYLOAD_SIZE` (client.rs, re-exported to server.rs).  Modelled
from the spec: client.rs is not among the sources; §6 fixes the value 1500. -/
def MAX_UDP_PAYLOAD_SIZE : Nat := 1500

/-- `MAX_MESSAGE_LEN` (client.rs).  Modelled from the spec: §6 gives the
SCTP-layer message limit as 1160. -/
def MAX_MESSAGE_LEN : Nat := 1160

/-- `RTC_CONNECTION_TIMEOUT` = 10 s (src/server.rs). -/
def RTC_CONNECTION_TIMEOUT : Nat := 10

/-- `RTC_SESSION_TIMEOUT` = 30 s (src/server.rs). -/
def RTC_SESSION_TIMEOUT : Nat := 30

/-- `CLEANUP_INTERVAL` = 10 s (src/server.rs). -/
def CLEANUP_INTERVAL : Nat := 10

/-- `PERIODIC_PACKET_INTERVAL` = 1 s (src/server.rs). -/
def PERIODIC_PACKET_INTERVAL : Nat := 1

/-- Message types of data-channel messages.  Modelled from the spec:
client.rs is not among the sources; §4.5 gives `message_type ∈ {Binary,
Text}`. -/
inductive MessageType
  | binary
  | text
deriving DecidableEq, Repr

/-- Client states.  Modelled from the spec: client.rs is not among the
sources; §4.5 gives the state machine `{Starting, Established, ShuttingDown,
Shutdown}`. -/
inductive ClientState
  | starting
  | established
  | shuttingDown
  | shutdown
deriving DecidableEq, Repr

/-- The parsed fields of a STUN binding request (stun.rs).  Modelled from the
spec: §4.4 gives `BindingRequest{transaction_id, server_user, remote_user}`. -/
structure BindingRequest where
  transactionId : Nat
  serverUser : String
  remoteUser : String
deriving DecidableEq, Repr

/-- A UDP packet, pre-classified.  Modelled from the spec: the STUN codec
(stun.rs) is not among the sources; §4.4 specifies it as a pure parse
function, so a packet is either a well-formed STUN binding request carrying
its parsed fields, a STUN success response, or an opaque (non-STUN) payload. -/
inductive Packet
  | stun (req : BindingRequest)
  | stunSuccess (transactionId : Nat) (mappedAddr : SockAddr)
  | raw (payload : List Nat)
deriving DecidableEq, Repr

/-- Per-peer client state.  Modelled from the spec: client.rs is not among
the sources; §3 and §4.5 give the fields (state, last-activity timestamp,
pending outbound UDP packets, pending inbound messages). -/
structure Client where
  state : ClientState
  lastActivityAge : Nat
  pendingOutgoing : List Packet
  pendingMessages : List (MessageType × List Nat)
deriving DecidableEq, Repr

/-- Modelled from the spec: `Client::is_shutdown` (§4.5 accessor). -/
def Client.is_shutdown (c : Client) : Bool := c.state = ClientState.shutdown

/-- Modelled from the spec: `Client::is_established` (§4.5 accessor). -/
def Client.is_established (c : Client) : Bool :=
  c.state = ClientState.established

/-- Modelled from the spec: `Client::shutdown_started`, true once the client
has entered `ShuttingDown` (or completed `Shutdown`). -/
def Client.shutdown_started (c : Client) : Bool :=
  c.state = ClientState.shuttingDown ∨ c.state = ClientState.shutdown

/-- Modelled from the spec: `Client::start_shutdown` (§4.5): transitions to
`ShuttingDown`, returning `true` exactly on the first call. -/
def Client.start_shutdown (c : Client) : Bool × Client :=
  if c.shutdown_started then (false, c)
  else (true, { c with state := ClientState.shuttingDown })

/-- Modelled from the spec: `Client::receive_incoming_packet` (§4.5): inject
ciphertext, updating the activity timestamp; fails (non-fatally) when DTLS
rejects the packet — the acceptance verdict is supplied by the environment
oracle. -/
def Client.receive_incoming_packet (c : Client) (accepted : Bool) :
    Except Unit Client :=
  if accepted then .ok { c with lastActivityAge := 0 } else .error ()

/-- Modelled from the spec: `Client::take_outgoing_packets` (§4.5): drain the
pending ciphertext UDP payloads. -/
def Client.take_outgoing_packets (c : Client) : List Packet × Client :=
  (c.pendingOutgoing, { c with pendingOutgoing := [] })

/-- Modelled from the spec: `Client::receive_messages` (§4.5): drain the
pending application-level messages. -/
def Client.receive_messages (c : Client) :
    List (MessageType × List Nat) × Client :=
  (c.pendingMessages, { c with pendingMessages := [] })

/-- Client-side errors of `Client::send_message`, as matched by
`Server::send` in src/server.rs. -/
inductive ClientError
  | notConnected
  | notEstablished
  | incompletePacketWrite
  | otherErr (msg : String)
deriving DecidableEq, Repr

/-- Modelled from the spec: `Client::send_message` (§4.5): fails with
`NotConnected` when the client is not `Established`, with
`IncompletePacketWrite` when the payload exceeds `MAX_MESSAGE_LEN`; otherwise
enqueues one datagram. -/
def Client.send_message (c : Client) (mt : MessageType) (payload : List Nat) :
    Except ClientError Client :=
  if c.is_established = false then .error .notConnected
  else if MAX_MESSAGE_LEN < payload.length then .error .incompletePacketWrite
  else
    .ok { c with pendingOutgoing := c.pendingOutgoing ++ [Packet.raw payload] }

/-- Modelled from the spec: `Client::generate_periodic` (§4.5) gives SCTP a
chance to emit heartbeats/retransmits; a failure verdict is supplied by the
environment oracle (on failure the server escalates to shutdown). -/
def Client.generate_periodic (c : Client) (ok : Bool) : Except Unit Client :=
  if ok then .ok c else .error ()

/-- The key `(server_user, remote_user)` of the sessions table
(struct `SessionKey` in src/server.rs). -/
structure SessionKey where
  server_user : String
  remote_user : String
deriving DecidableEq, Repr

/-- A pending session (struct `Session` in src/server.rs); `ttlAge` is the
age of the `ttl` instant. -/
structure Session where
  server_passwd : String
  ttlAge : Nat
deriving DecidableEq, Repr

/-- A pending session record sent by the `SessionEndpoint`
(struct `IncomingSession` in src/server.rs). -/
structure IncomingSession where
  server_user : String
  server_passwd : String
  remote_user : String
deriving DecidableEq, Repr

/-- Association-list lookup (the embedding of `HashMap::get`). -/
def lookupA {α β : Type} [DecidableEq α] : List (α × β) → α → Option β
  | [], _ => none
  | (k', v) :: rest, k => if k' = k then some v else lookupA rest k

/-- Association-list update at an existing key (the embedding of a mutation
through `HashMap::get_mut`); a missing key leaves the list unchanged. -/
def setA {α β : Type} [DecidableEq α] : List (α × β) → α → β → List (α × β)
  | [], _, _ => []
  | (k', v) :: rest, k, w =>
    if k' = k then (k', w) :: rest else (k', v) :: setA rest k w

/-- Association-list insert-or-replace (the embedding of `HashMap::insert`
and of `Entry::Vacant::insert`). -/
def insertA {α β : Type} [DecidableEq α] :
    List (α × β) → α → β → List (α × β)
  | [], k, w => [(k, w)]
  | (k', v) :: rest, k, w =>
    if k' = k then (k', w) :: rest else (k', v) :: insertA rest k w

/-- The server state (struct `Server` in src/server.rs): the session and
client tables, the outgoing-UDP and incoming-message queues, the two
housekeeping ages, and whether the UDP socket is open. -/
structure ServerSt where
  sessions : List (SessionKey × Session)
  clients : List (SockAddr × Client)
  outgoingUdp : List (Packet × SockAddr)
  incomingRtc : List (List Nat × SockAddr × MessageType)
  lastGeneratePeriodicAge : Nat
  lastCleanupAge : Nat
  socketOpen : Bool

/-- The state built by `Server::new`: empty tables and queues, both
housekeeping instants fresh, socket open. -/
def initServer : ServerSt :=
  { sessions := [], clients := [], outgoingUdp := [], incomingRtc := [],
    lastGeneratePeriodicAge := 0, lastCleanupAge := 0, socketOpen := true }

/-- The server's environment: the presence of the process-wide `EVENT_CB`
callback, and oracles for the outcomes of the external collaborators (socket
sends, `Client::new`, DTLS packet acceptance, `Client::generate_periodic`). -/
structure Env where
  cb : Bool
  send : SockAddr → Packet → Bool
  clientNew : SockAddr → Except String Client
  dtlsAccept : SockAddr → Packet → Bool
  periodicOk : SockAddr → Bool

/-- An invocation of the event callback: `(code, message)`. -/
abbrev CbEvent := Nat × String

/-- The message of a Rust `Option::unwrap` panic on `None`, raised by
src/server.rs when it invokes `EVENT_CB.unwrap()` with no callback set. -/
def panicUnwrapNone : String := "called unwrap on a None value"

/-- Modelled from the spec: `parse_stun_binding_request` (stun.rs, §4.4) —
`Some` exactly for well-formed STUN binding requests. -/
def parse_stun_binding_request : Packet → Option BindingRequest
  | .stun req => some req
  | _ => none

/-- Modelled from the spec: `write_stun_success_response` (stun.rs, §4.4) —
emits a binding success whose XOR-MAPPED-ADDRESS is the peer's observed
endpoint, signed with the session's `server_passwd`; the write itself always
succeeds in the model (the `Err` arm of the caller is retained). -/
def write_stun_success_response (transactionId : Nat) (remoteAddr : SockAddr)
    (passwd : String) : Except Unit Packet :=
  .ok (.stunSuccess transactionId remoteAddr)

/-- The `clients.retain` closure of `Server::timeout_clients`, with the
eviction events it emits: a client is kept iff it is not shut down and its
last activity is younger than `RTC_CONNECTION_TIMEOUT`; evicting a client
whose shutdown has not started invokes `EVENT_CB.unwrap()(1002, addr)`,
which panics when no callback is set. -/
def retainClients (cb : Bool) :
    List (SockAddr × Client) →
      Except String (List (SockAddr × Client) × List CbEvent)
  | [] => .ok ([], [])
  | (addr, c) :: rest =>
    if c.is_shutdown = false ∧ c.lastActivityAge < RTC_CONNECTION_TIMEOUT then
      match retainClients cb rest with
      | .ok (ks, es) => .ok ((addr, c) :: ks, es)
      | .error e => .error e
    else
      if c.shutdown_started = false then
        if cb then
          match retainClients cb rest with
          | .ok (ks, es) => .ok (ks, (1002, addr) :: es)
          | .error e => .error e
        else .error panicUnwrapNone
      else retainClients cb rest

/-- Embedding of `Server::timeout_clients` (src/server.rs): when the cleanup
is due, retain only fresh sessions and live clients, resetting
`last_cleanup`. -/
def timeout_clients (env : Env) (st : ServerSt) :
    Except String (ServerSt × List CbEvent) :=
  if CLEANUP_INTERVAL ≤ st.lastCleanupAge then
    let sessions' :=
      st.sessions.filter (fun e => e.2.ttlAge < RTC_SESSION_TIMEOUT)
    match retainClients env.cb st.clients with
    | .ok (kept, evs) =>
      .ok ({ st with sessions := sessions', clients := kept,
                     lastCleanupAge := 0 }, evs)
    | .error e => .error e
  else .ok (st, [])

/-- Embedding of `Server::receive_packet` (src/server.rs): classify the
datagram as a STUN binding request or route it to the client of its remote
address.  Returns the updated state and the callback events; a `String`
error is a Rust panic (`EVENT_CB.as_mut().unwrap()` with no callback). -/
def receive_packet (env : Env) (st : ServerSt) (remoteAddr : SockAddr)
    (packet : Packet) : Except String (ServerSt × List CbEvent) :=
  match parse_stun_binding_request packet with
  | some req =>
    match lookupA st.sessions ⟨req.serverUser, req.remoteUser⟩ with
    | some session =>
      let sessions' := setA st.sessions ⟨req.serverUser, req.remoteUser⟩
        { session with ttlAge := 0 }
      match write_stun_success_response req.transactionId remoteAddr
          session.server_passwd with
      | .ok resp =>
        let st1 := { st with
          sessions := sessions',
          outgoingUdp := st.outgoingUdp ++ [(resp, remoteAddr)] }
        match lookupA st1.clients remoteAddr with
        | none =>
          match env.clientNew remoteAddr with
          | .ok cl =>
            .ok ({ st1 with clients := insertA st1.clients remoteAddr cl }, [])
          | .error err =>
            if env.cb then .ok (st1, [(0, err)])
            else .error panicUnwrapNone
        | some _ => .ok (st1, [])
      | .error _ => .ok ({ st with sessions := sessions' }, [])
    | none => .ok (st, [])
  | none =>
    match lookupA st.clients remoteAddr with
    | some client =>
      let c1 :=
        match client.receive_incoming_packet (env.dtlsAccept remoteAddr packet)
          with
        | .ok c => c
        | .error _ =>
          if client.shutdown_started = false then (client.start_shutdown).2
          else client
      let (pkts, c2) := c1.take_outgoing_packets
      let (msgs, c3) := c2.receive_messages
      .ok ({ st with
              clients := setA st.clients remoteAddr c3,
              outgoingUdp :=
                st.outgoingUdp ++ pkts.map (fun p => (p, remoteAddr)),
              incomingRtc :=
                st.incomingRtc ++ msgs.map (fun m => (m.2, remoteAddr, m.1)) },
        [])
    | none => .ok (st, [])

/-- Embedding of `Server::accept_session` (src/server.rs): insert (or
replace) the pending session with a fresh TTL. -/
def accept_session (st : ServerSt) (s : IncomingSession) : ServerSt :=
  let sess : Session := { server_passwd := s.server_passwd, ttlAge := 0 }
  { st with
    sessions := insertA st.sessions ⟨s.server_user, s.remote_user⟩ sess }

/-- The per-client loop body of `Server::generate_periodic_packets`: a
failing `generate_periodic` escalates to shutdown; each client's pending
outgoing packets are drained into the outgoing queue. -/
def genLoop (env : Env) :
    List (SockAddr × Client) →
      List (SockAddr × Client) × List (Packet × SockAddr)
  | [] => ([], [])
  | (addr, c) :: rest =>
    let c1 :=
      match c.generate_periodic (env.periodicOk addr) with
      | .ok c' => c'
      | .error _ =>
        if c.shutdown_started = false then (c.start_shutdown).2 else c
    let (pkts, c2) := c1.take_outgoing_packets
    let (cs, out) := genLoop env rest
    ((addr, c2) :: cs, pkts.map (fun p => (p, addr)) ++ out)

/-- Embedding of `Server::generate_periodic_packets` (src/server.rs). -/
def generate_periodic_packets (env : Env) (st : ServerSt) : ServerSt :=
  if PERIODIC_PACKET_INTERVAL ≤ st.lastGeneratePeriodicAge then
    let (clients', out) := genLoop env st.clients
    { st with
      lastGeneratePeriodicAge := 0, clients := clients',
      outgoingUdp := st.outgoingUdp ++ out }
  else st

/-- Embedding of `Server::send_outgoing` (src/server.rs): pop and send until
the queue is empty; a failed or short `send_to` aborts with an Io error,
leaving the remaining queue.  Returns the leftover queue and whether every
send succeeded. -/
def send_outgoing (env : Env) :
    List (Packet × SockAddr) → List (Packet × SockAddr) × Bool
  | [] => ([], true)
  | (p, addr) :: rest =>
    if env.send addr p then send_outgoing env rest else (rest, false)

/-- The event selected by one iteration of `Server::process` (the local
`enum Next` of src/server.rs); `len` of an incoming packet is the datagram
length reported by `recv_from`. -/
inductive NextEvent
  | incomingSession (s : IncomingSession)
  | incomingPacket (len : Nat) (remoteAddr : SockAddr) (p : Packet)
  | periodicTimer
deriving DecidableEq, Repr

/-- How one `process` iteration ends abnormally: an `IoError` returned to the
caller, or a Rust panic. -/
inductive ProcErr
  | io (msg : String)
  | panicked (msg : String)
deriving DecidableEq, Repr

/-- The Io error message of an oversized datagram in `Server::process`. -/
def ioMsgOversize : String := "failed to read entire datagram from socket"

/-- The Io error message of a short UDP write in `Server::send_outgoing`. -/
def ioMsgShortWrite : String := "failed to write entire datagram to socket"

/-- Embedding of one iteration of `Server::process` (src/server.rs): handle
the selected event, then drain the outgoing queue (packet and timer events).
Returns the state at the end of the iteration, the callback events, and the
abnormal outcome if any. -/
def process (env : Env) (st : ServerSt) (ev : NextEvent) :
    ServerSt × List CbEvent × Option ProcErr :=
  match ev with
  | .incomingSession s => (accept_session st s, [], none)
  | .incomingPacket len remoteAddr p =>
    if MAX_UDP_PAYLOAD_SIZE < len then (st, [], some (.io ioMsgOversize))
    else
      match receive_packet env st remoteAddr p with
      | .error m => (st, [], some (.panicked m))
      | .ok (st1, evs) =>
        let (rest, sendOk) := send_outgoing env st1.outgoingUdp
        ({ st1 with outgoingUdp := rest }, evs,
          if sendOk then none else some (.io ioMsgShortWrite))
  | .periodicTimer =>
    match timeout_clients env st with
    | .error m => (st, [], some (.panicked m))
    | .ok (st1, evs) =>
      let st2 := generate_periodic_packets env st1
      let (rest, sendOk) := send_outgoing env st2.outgoingUdp
      ({ st2 with outgoingUdp := rest }, evs,
        if sendOk then none else some (.io ioMsgShortWrite))

/-- How a `Server::recv` call ends in the model: with a message, with an
error propagated from `process`, or still pending (suspended, awaiting more
events) once the supplied finite event trace is exhausted. -/
inductive RecvOutcome
  | message (m : List Nat × SockAddr × MessageType)
  | err (e : ProcErr)
  | pending
deriving DecidableEq, Repr

/-- Embedding of `Server::recv` (src/server.rs) over a finite trace of
selected events: while `incoming_rtc` is empty, run `process` (propagating
its errors); then pop the front message. -/
def recvSteps (env : Env) : ServerSt → List NextEvent → ServerSt × RecvOutcome
  | st, evs =>
    match st.incomingRtc with
    | m :: ms => ({ st with incomingRtc := ms }, .message m)
    | [] =>
      match evs with
      | [] => (st, .pending)
      | ev :: rest =>
        match process env st ev with
        | (st', _, some e) => (st', .err e)
        | (st', _, none) => recvSteps env st' rest

/-- The error type of `Server::send` (enum `SendError` in src/server.rs);
the payload of the `Io` variant is dropped in the model. -/
inductive SendError
  | clientNotConnected
  | incompleteMessageWrite
  | clientError (msg : String)
  | ioErr
deriving DecidableEq, Repr

/-- Embedding of `Server::send` (src/server.rs): look up the client, try
`send_message`, map client errors to `SendError`s, and on success drain the
client's outgoing packets to the socket. -/
def send (env : Env) (st : ServerSt) (message : List Nat) (mt : MessageType)
    (remoteAddr : SockAddr) : ServerSt × Except SendError Unit :=
  match lookupA st.clients remoteAddr with
  | none => (st, .error .clientNotConnected)
  | some client =>
    match client.send_message mt message with
    | .error .notConnected => (st, .error .clientNotConnected)
    | .error .notEstablished => (st, .error .clientNotConnected)
    | .error .incompletePacketWrite => (st, .error .incompleteMessageWrite)
    | .error (.otherErr e) =>
      let (first, c') := client.start_shutdown
      ({ st with clients := setA st.clients remoteAddr c' },
        if first then .error (.clientError e) else .error .clientNotConnected)
    | .ok c1 =>
      let (pkts, c2) := c1.take_outgoing_packets
      let st1 := { st with
        clients := setA st.clients remoteAddr c2,
        outgoingUdp := st.outgoingUdp ++ pkts.map (fun p => (p, remoteAddr)) }
      let (rest, sendOk) := send_outgoing env st1.outgoingUdp
      ({ st1 with outgoingUdp := rest },
        if sendOk then .ok () else .error .ioErr)

/-- Embedding of `Server::shutdown` (src/server.rs): start shutdown on every
client, clear both tables, then execute `drop(self.udp_socket.as_ref())`.
Dropping a shared reference is a no-op in Rust, so the socket stays open:
`socketOpen` is unchanged. -/
def shutdown (st : ServerSt) : ServerSt :=
  let _clients' := st.clients.map (fun e => (e.1, (e.2.start_shutdown).2))
  { st with clients := [], sessions := [] }

/-! ## Concrete fixtures for witnesses and counterexamples -/

/-- A freshly constructed client (used as a `Client::new` result). -/
def freshClient : Client :=
  { state := ClientState.starting, lastActivityAge := 0,
    pendingOutgoing := [], pendingMessages := [] }

/-- An established, active client with empty queues. -/
def estClient : Client :=
  { state := ClientState.established, lastActivityAge := 0,
    pendingOutgoing := [], pendingMessages := [] }

/-- A benign environment: callback installed, every socket send succeeds,
client construction succeeds, DTLS accepts every packet. -/
def env0 : Env :=
  { cb := true, send := fun _ _ => true,
    clientNew := fun _ => .ok freshClient,
    dtlsAccept := fun _ _ => true, periodicOk := fun _ => true }

/-- The environment of a server constructed with `cb = None`: `EVENT_CB`
stays `None`; `Client::new` fails (its error path is the one under test). -/
def envNoCb : Env :=
  { cb := false, send := fun _ _ => true,
    clientNew := fun _ => .error "client init failed",
    dtlsAccept := fun _ _ => true, periodicOk := fun _ => true }

/-- An environment whose socket refuses to send the packet `raw [1]`
(an Io error or short write on that datagram). -/
def envBadSend : Env :=
  { cb := true, send := fun _ p => decide (p ≠ Packet.raw [1]),
    clientNew := fun _ => .ok freshClient,
    dtlsAccept := fun _ _ => true, periodicOk := fun _ => true }

/-- A server with one pending session and one established client
(fixture for the shutdown claim). -/
def stShut : ServerSt :=
  { sessions := [(⟨"u", "r"⟩, { server_passwd := "pw", ttlAge := 0 })],
    clients := [("1.1.1.1:1", estClient)],
    outgoingUdp := [], incomingRtc := [],
    lastGeneratePeriodicAge := 0, lastCleanupAge := 0, socketOpen := true }

/-- A server due for cleanup holding one idle established client. -/
def stIdle : ServerSt :=
  { sessions := [],
    clients := [("2.2.2.2:2", { estClient with lastActivityAge := 10 })],
    outgoingUdp := [], incomingRtc := [],
    lastGeneratePeriodicAge := 0, lastCleanupAge := 10, socketOpen := true }

/-- A server with one pending session for `(srv, usr)` and no clients. -/
def stAuth : ServerSt :=
  { sessions := [(⟨"srv", "usr"⟩, { server_passwd := "pw", ttlAge := 0 })],
    clients := [], outgoingUdp := [], incomingRtc := [],
    lastGeneratePeriodicAge := 0, lastCleanupAge := 0, socketOpen := true }

/-- A server due for cleanup holding one idle client whose shutdown has
already started. -/
def stShutStarted : ServerSt :=
  { sessions := [],
    clients := [("3.3.3.3:3",
      { state := ClientState.shuttingDown, lastActivityAge := 10,
        pendingOutgoing := [], pendingMessages := [] })],
    outgoingUdp := [], incomingRtc := [],
    lastGeneratePeriodicAge := 0, lastCleanupAge := 10, socketOpen := true }

/-- A server with one established client holding two pending outgoing
datagrams `raw [1]`, `raw [2]` (fixture for the drain-invariant claim). -/
def stTwoPending : ServerSt :=
  { sessions := [],
    clients := [("9.9.9.9:1",
      { estClient with pendingOutgoing := [Packet.raw [1], Packet.raw [2]] })],
    outgoingUdp := [], incomingRtc := [],
    lastGeneratePeriodicAge := 0, lastCleanupAge := 0, socketOpen := true }

/-- A server with one pending session keyed `(srv, other)` (fixture for the
unknown-STUN-username claim). -/
def stOther : ServerSt :=
  { sessions := [(⟨"srv", "other"⟩, { server_passwd := "pw", ttlAge := 3 })],
    clients := [("1.1.1.1:1", estClient)],
    outgoingUdp := [], incomingRtc := [],
    lastGeneratePeriodicAge := 0, lastCleanupAge := 0, socketOpen := true }

/-- A server with one client that is still `Starting` (fixture for the
send-to-unconnected claim). -/
def stStarting : ServerSt :=
  { sessions := [], clients := [("4.4.4.4:4", freshClient)],
    outgoingUdp := [], incomingRtc := [],
    lastGeneratePeriodicAge := 0, lastCleanupAge := 0, socketOpen := true }

/-- The number of `code = 1002` callback invocations for a given address. -/
def countEv1002 (evs : List CbEvent) (addr : SockAddr) : Nat :=
  (evs.filter (fun e => decide (e.1 = 1002 ∧ e.2 = addr))).length

/-- The clients kept by the `clients.retain` sweep (specification companion
of `retainClients`, shared by its characterization lemma). -/
def keptOf : List (SockAddr × Client) → List (SockAddr × Client)
  | [] => []
  | (addr, c) :: rest =>
    if c.is_shutdown = false ∧ c.lastActivityAge < RTC_CONNECTION_TIMEOUT then
      (addr, c) :: keptOf rest
    else keptOf rest

/-- The callback events emitted by the `clients.retain` sweep when a
callback is installed. -/
def evsOf : List (SockAddr × Client) → List CbEvent
  | [] => []
  | (addr, c) :: rest =>
    if c.is_shutdown = false ∧ c.lastActivityAge < RTC_CONNECTION_TIMEOUT then
      evsOf rest
    else
      if c.shutdown_started = false then (1002, addr) :: evsOf rest
      else evsOf rest

/-- The value bytes of an overlong `a=ice-ufrag:` attribute: 499 ASCII
bytes, then the lead byte `0xC3` of a two-byte UTF-8 character whose
continuation byte will fall beyond the 512-byte line cap. -/
def bigTail : List Nat := List.replicate 499 97 ++ [0xC3]

/-- A 512-byte `a=ice-ufrag:` line: the prefix (12 bytes) plus `bigTail`
(500 bytes). -/
def bigLine : List Nat := pfxUfrag ++ bigTail

/-- Two short terminated lines carrying `a=ice-pwd:x` and `a=mid:0`. -/
def seg1 : List Nat :=
  strBytes "a=ice-pwd:x" ++ [10] ++ (strBytes "a=mid:0" ++ [10])

/-- The parser state after `seg1`: password and mid found, nothing else. -/
def stA : ParseSt :=
  { lineBuf := [], found_ice_ufrag := none, found_ice_passwd := some [120],
    found_mid := some [48] }

/-- An SDP offer whose three attributes all occur on terminated lines, but
whose `a=ice-ufrag:` line is 513 bytes long with a two-byte UTF-8 character
straddling the 512-byte truncation point: byte 513 (`0xA9`) is dropped by
the line cap, leaving the dangling lead byte `0xC3` at the end of the
truncated value. -/
def ce7 : List Nat := seg1 ++ ((bigLine ++ [0xA9]) ++ [10])

/-- The final `match` of `parse_sdp_fields`, factored out so that proofs can
rewrite the loop result independently. -/
def finalizeFields (r : Except Unit ParseSt) : Except Unit SdpFields :=
  match r with
  | .error e => .error e
  | .ok st =>
    match st.found_ice_ufrag, st.found_ice_passwd, st.found_mid with
    | some u, some p, some m =>
      .ok { ice_ufrag := u, ice_passwd := p, mid := m }
    | _, _, _ => .error ()

/-- A two-line offer carrying `a=ice-ufrag:u` and `a=ice-pwd:p` only. -/
def w1 : List Nat :=
  strBytes "a=ice-ufrag:u" ++ [10] ++ (strBytes "a=ice-pwd:p" ++ [10])

/-- A complete three-line offer with all attributes terminated. -/
def w2 : List Nat :=
  strBytes "a=ice-ufrag:u" ++ [10] ++
    (strBytes "a=ice-pwd:p" ++ [10] ++ (strBytes "a=mid:0" ++ [10]))

/-! ## Helper lemmas -/

/-- When every socket send succeeds, `send_outgoing` drains the whole queue. -/
theorem send_outgoing_all (env : Env) (hs : ∀ a p, env.send a p = true) :
    ∀ q, send_outgoing env q = ([], true) := by
  intro q
  induction q with
  | nil => rfl
  | cons hd tl ih =>
    obtain ⟨p, a⟩ := hd
    simp [send_outgoing, hs a p, ih]

/-- With a callback installed, the retain sweep never panics and is
characterized by `keptOf` and `evsOf`. -/
theorem retainClients_true :
    ∀ l, retainClients true l = .ok (keptOf l, evsOf l) := by
  intro l
  induction l with
  | nil => rfl
  | cons hd tl ih =>
    obtain ⟨addr, c⟩ := hd
    by_cases hkeep :
        c.is_shutdown = false ∧ c.lastActivityAge < RTC_CONNECTION_TIMEOUT
    · simp [retainClients, keptOf, evsOf, hkeep, ih]
    · by_cases hss : c.shutdown_started = false
      · simp [retainClients, keptOf, evsOf, hkeep, hss, ih]
      · simp [retainClients, keptOf, evsOf, hkeep, hss, ih]

/-- An address absent from a client list is absent from the kept clients. -/
theorem keptOf_not_mem {a : SockAddr} :
    ∀ l : List (SockAddr × Client), a ∉ l.map Prod.fst →
      lookupA (keptOf l) a = none := by
  intro l
  induction l with
  | nil => intro _; rfl
  | cons hd tl ih =>
    obtain ⟨a', c'⟩ := hd
    intro ha
    simp only [List.map_cons, List.mem_cons] at ha
    push_neg at ha
    by_cases hkeep :
        c'.is_shutdown = false ∧ c'.lastActivityAge < RTC_CONNECTION_TIMEOUT
    · simp [keptOf, hkeep, lookupA, Ne.symm ha.1, ih ha.2]
    · simp [keptOf, hkeep, ih ha.2]

/-- An address absent from a client list receives no eviction event. -/
theorem evsOf_not_mem {a : SockAddr} :
    ∀ l : List (SockAddr × Client), a ∉ l.map Prod.fst →
      countEv1002 (evsOf l) a = 0 := by
  intro l
  induction l with
  | nil => intro _; rfl
  | cons hd tl ih =>
    obtain ⟨a', c'⟩ := hd
    intro ha
    simp only [List.map_cons, List.mem_cons] at ha
    push_neg at ha
    by_cases hkeep :
        c'.is_shutdown = false ∧ c'.lastActivityAge < RTC_CONNECTION_TIMEOUT
    · simp [evsOf, hkeep, ih ha.2]
    · by_cases hss : c'.shutdown_started = false
      · have hne : a' ≠ a := Ne.symm ha.1
        simp [evsOf, hkeep, hss, countEv1002, List.filter, hne, ih ha.2]
        simpa [countEv1002] using ih ha.2
      · simp [evsOf, hkeep, hss, ih ha.2]

/-- The retain sweep evicts every client idle for at least
`RTC_CONNECTION_TIMEOUT` and emits exactly one 1002 event for it iff its
shutdown had not started. -/
theorem retain_core :
    ∀ (l : List (SockAddr × Client)) (addr : SockAddr) (c : Client),
      (l.map Prod.fst).Nodup → (addr, c) ∈ l →
      RTC_CONNECTION_TIMEOUT ≤ c.lastActivityAge →
      lookupA (keptOf l) addr = none ∧
        countEv1002 (evsOf l) addr =
          (if c.shutdown_started then 0 else 1) := by
  intro l
  induction l with
  | nil => intro addr c _ hmem _; cases hmem
  | cons hd tl ih =>
    obtain ⟨a', c'⟩ := hd
    intro addr c hnd hmem hage
    simp only [List.map_cons, List.nodup_cons] at hnd
    rcases List.mem_cons.mp hmem with heq | hmem'
    · obtain ⟨rfl, rfl⟩ := Prod.mk.injEq _ _ _ _ ▸ heq
      have hnkeep :
          ¬(c.is_shutdown = false ∧
            c.lastActivityAge < RTC_CONNECTION_TIMEOUT) := by
        rintro ⟨_, hlt⟩
        exact absurd hage (Nat.not_le_of_lt hlt)
      have hnomem : addr ∉ tl.map Prod.fst := hnd.1
      refine ⟨?_, ?_⟩
      · simp [keptOf, hnkeep, keptOf_not_mem tl hnomem]
      · by_cases hss : c.shutdown_started = false
        · simp [evsOf, hnkeep, hss, countEv1002, List.filter,
            evsOf_not_mem tl hnomem]
          simpa [countEv1002] using evsOf_not_mem tl hnomem
        · have hss' : c.shutdown_started = true := by
            revert hss
            cases c.shutdown_started <;> simp
          simp [evsOf, hnkeep, hss, hss', evsOf_not_mem tl hnomem]
    · have hne : a' ≠ addr := by
        intro h
        subst h
        exact hnd.1 (List.mem_map.mpr ⟨(a', c), hmem', rfl⟩)
      have hrec := ih addr c hnd.2 hmem' hage
      by_cases hkeep :
          c'.is_shutdown = false ∧
            c'.lastActivityAge < RTC_CONNECTION_TIMEOUT
      · refine ⟨?_, ?_⟩
        · simp [keptOf, hkeep, lookupA, hne, hrec.1]
        · simp [evsOf, hkeep, hrec.2]
      · by_cases hss : c'.shutdown_started = false
        · refine ⟨?_, ?_⟩
          · simp [keptOf, hkeep, hrec.1]
          · simp only [evsOf, hkeep, hss, if_false, if_true]
            simp [countEv1002, List.filter, hne]
            simpa [countEv1002] using hrec.2
        · exact ⟨by simp [keptOf, hkeep, hrec.1],
            by simp [evsOf, hkeep, hss, hrec.2]⟩

/-! ## SDP parsing lemmas -/

/-- A successful `checkField` yields the raw recognized value (or keeps the
current one). -/
theorem checkField_ok {cur m f : Option (List Nat)}
    (h : checkField cur m = .ok f) :
    f = match m with | some v => some v | none => cur := by
  cases m with
  | none => simpa [checkField] using h.symm
  | some v =>
    by_cases hv : utf8Valid v = true
    · simpa [checkField, hv] using h.symm
    · simp [checkField, hv] at h

/-- A non-aborting `step` computes exactly the abort-free `stepT`. -/
theorem step_ok_eq {st : ParseSt} {c : Nat} {st' : ParseSt}
    (h : step st c = .ok st') : st' = stepT st c := by
  by_cases hnl : c = 13 ∨ c = 10
  · by_cases hemp : st.lineBuf = []
    · rw [step, if_pos hnl, if_pos hemp] at h
      rw [stepT, if_pos hnl, if_pos hemp]
      exact (Except.ok.injEq _ _ ▸ h).symm
    · rw [step, if_pos hnl, if_neg hemp] at h
      rw [stepT, if_pos hnl, if_neg hemp]
      rcases hA : restAfter st.lineBuf pfxUfrag with _ | vA <;>
        rcases hB : restAfter st.lineBuf pfxPwd with _ | vB <;>
          rcases hC : restAfter st.lineBuf pfxMid with _ | vC <;>
            rw [hA, hB, hC] at h <;>
              simp only [hA, hB, hC, checkField] at h ⊢ <;>
                (try split_ifs at h) <;>
                  first
                    | (injection h with h; exact h.symm)
                    | rfl
                    | injection h
  · rw [step, if_neg hnl] at h
    rw [stepT, if_neg hnl]
    exact (Except.ok.injEq _ _ ▸ h).symm

/-- A non-aborting `runParse` computes exactly the abort-free `runT`. -/
theorem runParse_ok_eq :
    ∀ (bs : List Nat) (st st' : ParseSt),
      runParse st bs = .ok st' → st' = runT st bs := by
  intro bs
  induction bs with
  | nil =>
    intro st st' h
    exact (Except.ok.injEq _ _ ▸ h).symm
  | cons c rest ih =>
    intro st st' h
    rcases hs : step st c with e | st1
    · rw [runParse, hs] at h; cases h
    · rw [runParse, hs] at h
      rw [runT, ← step_ok_eq hs]
      exact ih st1 st' h

/-- `runParse` over an appended input runs the two parts in sequence. -/
theorem runParse_append :
    ∀ (xs ys : List Nat) (st : ParseSt),
      runParse st (xs ++ ys) =
        match runParse st xs with
        | .ok st1 => runParse st1 ys
        | .error e => .error e := by
  intro xs
  induction xs with
  | nil => intro ys st; rfl
  | cons c rest ih =>
    intro ys st
    rcases hs : step st c with e | st1
    · simp [runParse, hs]
    · simp [runParse, hs, ih]

/-- `runT` over an appended input runs the two parts in sequence. -/
theorem runT_append :
    ∀ (xs ys : List Nat) (st : ParseSt),
      runT st (xs ++ ys) = runT (runT st xs) ys := by
  intro xs
  induction xs with
  | nil => intro ys st; rfl
  | cons c rest ih => intro ys st; simp [runT, ih]

/-- On a byte that is neither CR nor LF, `step` never aborts and agrees with
`stepT`. -/
theorem step_noNL {c : Nat} (hnl : ¬(c = 13 ∨ c = 10)) (st : ParseSt) :
    step st c = .ok (stepT st c) := by
  rw [step, if_neg hnl, stepT, if_neg hnl]

/-- Feeding newline-free bytes never aborts. -/
theorem runParse_noNL :
    ∀ (bs : List Nat), (∀ c ∈ bs, ¬(c = 13 ∨ c = 10)) →
      ∀ st, runParse st bs = .ok (runT st bs) := by
  intro bs
  induction bs with
  | nil => intro _ st; rfl
  | cons c rest ih =>
    intro h st
    have hc := h c (List.mem_cons_self c rest)
    have hr := fun d hd => h d (List.mem_cons_of_mem c hd)
    rw [runParse, step_noNL hc, runT]
    exact ih hr (stepT st c)

/-- Newline-free bytes only grow the line buffer: the three `found_*` fields
are untouched. -/
theorem runT_noNL_fields :
    ∀ (bs : List Nat), (∀ c ∈ bs, ¬(c = 13 ∨ c = 10)) →
      ∀ st, ∃ lb, runT st bs = { st with lineBuf := lb } := by
  intro bs
  induction bs with
  | nil =>
    intro _ st
    exact ⟨st.lineBuf, rfl⟩
  | cons c rest ih =>
    intro h st
    have hc := h c (List.mem_cons_self c rest)
    have hr := fun d hd => h d (List.mem_cons_of_mem c hd)
    rw [runT, stepT, if_neg hc]
    by_cases hlen : st.lineBuf.length < MAX_SDP_LINE
    · rw [if_pos hlen]
      obtain ⟨lb, hlb⟩ := ih hr { st with lineBuf := st.lineBuf ++ [c] }
      exact ⟨lb, hlb⟩
    · rw [if_neg hlen]
      exact ih hr st

/-- Closed form of the line buffer after newline-free bytes: the buffer is
extended with the input, truncated at `MAX_SDP_LINE`. -/
theorem runT_noNL_lineBuf :
    ∀ (bs : List Nat), (∀ c ∈ bs, ¬(c = 13 ∨ c = 10)) →
      ∀ st, runT st bs =
        { st with lineBuf :=
            st.lineBuf ++ bs.take (MAX_SDP_LINE - st.lineBuf.length) } := by
  intro bs
  induction bs with
  | nil =>
    intro _ st
    rw [List.take_nil, List.append_nil]
    rfl
  | cons c rest ih =>
    intro h st
    have hc := h c (List.mem_cons_self c rest)
    have hr := fun d hd => h d (List.mem_cons_of_mem c hd)
    rw [runT, stepT, if_neg hc]
    by_cases hlen : st.lineBuf.length < MAX_SDP_LINE
    · rw [if_pos hlen, ih hr]
      have harith : MAX_SDP_LINE - st.lineBuf.length =
          (MAX_SDP_LINE - (st.lineBuf.length + 1)) + 1 := by
        omega
      simp only [List.length_append, List.length_cons, List.length_nil]
      rw [harith, List.take_succ_cons, List.append_assoc]
      rfl
    · rw [if_neg hlen, ih hr]
      have harith : MAX_SDP_LINE - st.lineBuf.length = 0 := by omega
      rw [harith]
      simp

/-- Skipping a run of ASCII bytes preserves UTF-8 validity of the rest. -/
theorem utf8Valid_replicate_a :
    ∀ (n : Nat) (rest : List Nat),
      utf8Valid (List.replicate n 97 ++ rest) = utf8Valid rest := by
  intro n
  induction n with
  | zero => intro rest; rfl
  | succ k ih =>
    intro rest
    rw [utf8Valid, List.replicate_succ, List.cons_append, List.foldl_cons]
    exact ih rest

/-- `restAfter` recovers the suffix after a literal prefix. -/
theorem restAfter_append (p s : List Nat) : restAfter (p ++ s) p = some s := by
  have h1 : p.isPrefixOf (p ++ s) = true := by
    rw [List.isPrefixOf_iff_prefix]
    exact p.prefix_append s
  rw [restAfter, if_pos h1, List.drop_left]

/-- `parse_sdp_fields` is the byte loop followed by the final field check. -/
theorem parse_eq (bs : List Nat) :
    parse_sdp_fields bs = finalizeFields (runParse initSt bs) := rfl

/-- The overlong ufrag line is exactly `MAX_SDP_LINE` bytes once truncated. -/
theorem bigLine_len : bigLine.length = MAX_SDP_LINE := by
  rw [bigLine, bigTail, List.length_append, List.length_append,
    List.length_replicate]
  rfl

/-- The overlong ufrag line is nonempty. -/
theorem bigLine_ne : bigLine ≠ [] := by
  intro h
  have := congrArg List.length h
  rw [bigLine_len] at this
  exact absurd this (by decide)

set_option maxRecDepth 8192 in
/-- The overlong ufrag line (with its 513th byte) contains no CR or LF. -/
theorem bigLine_noNL : ∀ c ∈ bigLine ++ [0xA9], ¬(c = 13 ∨ c = 10) := by
  decide

/-- Feeding the two short lines finds the password and the mid. -/
theorem runParse_seg1 : runParse initSt seg1 = .ok stA := rfl

/-- The abort-free loop agrees on the two short lines. -/
theorem runT_seg1 : runT initSt seg1 = stA := rfl

/-- Feeding the overlong line accumulates exactly the truncated 512 bytes. -/
theorem runParse_bigLine : runParse stA (bigLine ++ [0xA9]) =
    .ok { stA with lineBuf := bigLine } := by
  rw [runParse_noNL _ bigLine_noNL, runT_noNL_lineBuf _ bigLine_noNL]
  have htake : (bigLine ++ [0xA9]).take MAX_SDP_LINE = bigLine := by
    rw [← bigLine_len, List.take_left]
  simp only [stA, List.nil_append, Nat.sub_zero, List.length_nil, htake]

/-- The truncated ufrag value ends in a dangling UTF-8 lead byte. -/
theorem utf8Valid_bigTail : utf8Valid bigTail = false := by
  rw [bigTail, utf8Valid_replicate_a]
  rfl

/-- Terminating the overlong line aborts the parse: its value fails the
`String::from_utf8` check. -/
theorem step_bigLine : step { stA with lineBuf := bigLine } 10 = .error () := by
  rw [step, if_pos (by decide : (10 : Nat) = 13 ∨ (10 : Nat) = 10)]
  rw [if_neg (by exact bigLine_ne)]
  have hA : restAfter bigLine pfxUfrag = some bigTail := by
    rw [bigLine]
    exact restAfter_append pfxUfrag bigTail
  rw [hA]
  simp only [checkField, utf8Valid_bigTail]
  rfl

/-- The byte loop aborts on `ce7`. -/
theorem runParse_ce7 : runParse initSt ce7 = .error () := by
  rw [ce7, runParse_append, runParse_seg1]
  show runParse stA ((bigLine ++ [0xA9]) ++ [10]) = .error ()
  rw [runParse_append, runParse_bigLine]
  show runParse { stA with lineBuf := bigLine } [10] = .error ()
  rw [runParse, step_bigLine]

/-- The abort-free loop records all three attributes of `ce7`. -/
theorem allFound_ce7 : allFound (runT initSt ce7) = true := by
  rw [ce7, runT_append, runT_seg1, runT_append,
    runT_noNL_lineBuf _ bigLine_noNL]
  have htake : (bigLine ++ [0xA9]).take MAX_SDP_LINE = bigLine := by
    rw [← bigLine_len, List.take_left]
  simp only [stA, List.nil_append, Nat.sub_zero, List.length_nil, htake]
  rw [runT, stepT, if_pos (by decide : (10 : Nat) = 13 ∨ (10 : Nat) = 10)]
  rw [if_neg (by exact bigLine_ne)]
  have hA : restAfter bigLine pfxUfrag = some bigTail := by
    rw [bigLine]
    exact restAfter_append pfxUfrag bigTail
  have hB : restAfter bigLine pfxPwd = none := rfl
  have hC : restAfter bigLine pfxMid = none := rfl
  rw [hA, hB, hC]
  rfl

/-! ## Claim theorems -/

/-- C1.  After `shutdown()` the clients and sessions maps are indeed empty,
but the socket is NOT closed — `drop(self.udp_socket.as_ref())` drops a
shared reference, a no-op — so a subsequent `recv()` does not return an Io
error: on a quiet tick it keeps waiting (`pending`), serving as before. -/
theorem C1_shutdown_eval :
    (shutdown stShut).clients = [] ∧ (shutdown stShut).sessions = [] ∧
      (shutdown stShut).socketOpen = true ∧
      (recvSteps env0 (shutdown stShut) [NextEvent.periodicTimer]).2 =
        RecvOutcome.pending :=
  ⟨rfl, rfl, rfl, rfl⟩

/-- C2.  With no event callback installed (`cb = None`), the server panics:
evicting an idle client executes `EVENT_CB.unwrap()` on `None` in
`timeout_clients`, and a failed `Client::new` for an authenticated peer
executes `EVENT_CB.as_mut().unwrap()` on `None` in `receive_packet`. -/
theorem C2_none_callback_panics :
    timeout_clients envNoCb stIdle = .error panicUnwrapNone ∧
      receive_packet envNoCb stAuth "3.3.3.3:3"
          (Packet.stun ⟨7, "srv", "usr"⟩) =
        .error panicUnwrapNone :=
  ⟨rfl, rfl⟩

/-- C3 counterexample.  A client idle for `RTC_CONNECTION_TIMEOUT` whose
shutdown has already started (state `ShuttingDown`) is removed by the
cleanup tick, but the sweep emits NO `code=1002` event for it (the event is
guarded by `!client.shutdown_started()`), contradicting "its removal emits
exactly one event with code 1002". -/
theorem C3_counterexample :
    timeout_clients env0 stShutStarted =
      .ok ({ sessions := [], clients := [], outgoingUdp := [],
             incomingRtc := [], lastGeneratePeriodicAge := 0,
             lastCleanupAge := 0, socketOpen := true }, []) ∧
      countEv1002 [] "3.3.3.3:3" ≠ 1 :=
  ⟨rfl, by decide⟩

/-- C3 amended.  With a callback installed, on a due cleanup tick every
client idle for at least `RTC_CONNECTION_TIMEOUT` (10 s) is removed from the
clients map, and its removal emits exactly one `code=1002` event when its
shutdown had not already started (and none when it had). -/
theorem C3_amended (env : Env) (st : ServerSt) (addr : SockAddr) (c : Client)
    (hcb : env.cb = true)
    (hdue : CLEANUP_INTERVAL ≤ st.lastCleanupAge)
    (hnd : (st.clients.map Prod.fst).Nodup)
    (hmem : (addr, c) ∈ st.clients)
    (hage : RTC_CONNECTION_TIMEOUT ≤ c.lastActivityAge) :
    ∃ st' evs, timeout_clients env st = .ok (st', evs) ∧
      lookupA st'.clients addr = none ∧
      countEv1002 evs addr = (if c.shutdown_started then 0 else 1) := by
  have hcore := retain_core st.clients addr c hnd hmem hage
  refine ⟨{ st with
      sessions := st.sessions.filter (fun e => e.2.ttlAge < RTC_SESSION_TIMEOUT),
      clients := keptOf st.clients, lastCleanupAge := 0 },
    evsOf st.clients, ?_, hcore.1, hcore.2⟩
  simp [timeout_clients, hdue, hcb, retainClients_true]

/-- C3 amended, witness: the idle established client of `stIdle` is evicted
with exactly one 1002 event. -/
theorem C3_witness :
    ∃ st' evs, timeout_clients env0 stIdle = .ok (st', evs) ∧
      lookupA st'.clients "2.2.2.2:2" = none ∧
      countEv1002 evs "2.2.2.2:2" =
        (if ({ estClient with lastActivityAge := 10 } : Client).shutdown_started
         then 0 else 1) :=
  C3_amended env0 stIdle "2.2.2.2:2" { estClient with lastActivityAge := 10 }
    rfl (by decide) (by decide) (by decide) (by decide)

/-- C4 counterexample.  A non-STUN datagram from a client with two pending
outgoing datagrams, in an environment where the socket fails to send the
first one: the `process` iteration ends (with the Io error surfaced) while
`outgoing_udp` still holds the second datagram — the queue is NOT empty at
the end of the event-handler iteration. -/
theorem C4_counterexample :
    ((process envBadSend stTwoPending
        (NextEvent.incomingPacket 3 "9.9.9.9:1" (Packet.raw [9]))).1).outgoingUdp
      = [(Packet.raw [2], "9.9.9.9:1")] ∧
    ((process envBadSend stTwoPending
        (NextEvent.incomingPacket 3 "9.9.9.9:1" (Packet.raw [9]))).1).outgoingUdp
      ≠ [] ∧
    (process envBadSend stTwoPending
        (NextEvent.incomingPacket 3 "9.9.9.9:1" (Packet.raw [9]))).2.2 =
      some (ProcErr.io ioMsgShortWrite) :=
  ⟨rfl, by decide, rfl⟩

/-- C4 amended.  The outgoing queue starts empty at `Server::new`, and
provided every socket send writes the full datagram, a `process` iteration
that starts with an empty outgoing queue ends with an empty outgoing queue
(so, inductively, the queue is empty at the end of every event-handler
iteration of an error-free run). -/
theorem C4_amended :
    initServer.outgoingUdp = [] ∧
    ∀ (env : Env) (st : ServerSt) (ev : NextEvent),
      (∀ a p, env.send a p = true) → st.outgoingUdp = [] →
      ((process env st ev).1).outgoingUdp = [] := by
  refine ⟨rfl, ?_⟩
  intro env st ev hs h0
  cases ev with
  | incomingSession s =>
    simpa [process, accept_session] using h0
  | incomingPacket len remoteAddr p =>
    by_cases hlen : MAX_UDP_PAYLOAD_SIZE < len
    · simpa [process, hlen] using h0
    · rcases hR : receive_packet env st remoteAddr p with e | ⟨st1, evs⟩
      · simpa [process, hlen, hR] using h0
      · simp [process, hlen, hR, send_outgoing_all env hs]
  | periodicTimer =>
    rcases hT : timeout_clients env st with e | ⟨st1, evs⟩
    · simpa [process, hT] using h0
    · simp [process, hT, send_outgoing_all env hs]

/-- C4 witness: the amended statement applied to the benign environment, the
fresh server and a periodic-timer event. -/
theorem C4_witness :
    ((process env0 initServer NextEvent.periodicTimer).1).outgoingUdp = [] :=
  C4_amended.2 env0 initServer NextEvent.periodicTimer (fun _ _ => rfl) rfl

/-- C5 counterexample.  With rng draws 5 and 7, the origin line of the
generated answer is exactly `o=FTL 5 1 IN IP4 1.2.3.4`: it carries only the
FIRST draw (the `1` is the literal SDP session-version), and the second draw
`7` does not even occur in it — the `o=` line does not carry two random
integers. -/
theorem C5_counterexample :
    originLineOf (gen_sdp_response 5 7 "FP" "1.2.3.4" false 9000 "uf" "pw" "0")
        = some "o=FTL 5 1 IN IP4 1.2.3.4" ∧
      ("o=FTL 5 1 IN IP4 1.2.3.4".data.contains '7') = false :=
  ⟨rfl, by decide⟩

/-- C5 amended.  For every rng (draws `rand1`, `rand2`) and all inputs, the
answer contains the origin line `o=FTL <rand1> 1 IN <IP4|IP6> <ip>`: one
random 32-bit integer followed by the constant session-version 1; the second
random integer appears later, as the priority of the advertised candidate
(`candidate:1 1 UDP <rand2> ...`). -/
theorem C5_amended (rand1 rand2 : Nat) (fp ip : String) (v6 : Bool)
    (port : Nat) (uf pw remoteMid : String) :
    ∃ pre post,
      gen_sdp_response rand1 rand2 fp ip v6 port uf pw remoteMid =
        pre ++ ("o=FTL " ++ toString rand1 ++ " 1 IN " ++
          (if v6 then "IP6" else "IP4") ++ " " ++ ip ++ crlf) ++ post ∧
      ∃ mid2 post2,
        post = mid2 ++ ("candidate:1 1 UDP " ++ toString rand2 ++ " ") ++
          post2 := by
  refine ⟨"\x7b\"answer\":\x7b\"sdp\":\"" ++ "v=0" ++ crlf,
    "s=-" ++ crlf ++
    "c=IN " ++ (if v6 then "IP6" else "IP4") ++ " " ++ ip ++ crlf ++
    "t=0 0" ++ crlf ++ "a=ice-lite" ++ crlf ++
    "a=ice-ufrag:" ++ uf ++ crlf ++ "a=ice-pwd:" ++ pw ++ crlf ++
    "m=application " ++ toString port ++
      " UDP/DTLS/SCTP webrtc-datachannel" ++ crlf ++
    "a=max-message-size:1160" ++ crlf ++
    "a=fingerprint:sha-256 " ++ fp ++ crlf ++
    "a=ice-options:trickle" ++ crlf ++ "a=setup:passive" ++ crlf ++
    "a=mid:" ++ remoteMid ++ crlf ++
    "a=sctpmap:" ++ toString port ++ " webrtc-datachannel 8000" ++ crlf ++
    "a=max-message-size:1160" ++ crlf ++ "a=sendrecv" ++ crlf ++
    "a=sctp-port:" ++ toString port ++ crlf ++
    "\",\"type\":\"answer\"\x7d,\"candidate\":\x7b\"sdpMLineIndex\":0,\"sdpMid\":\"" ++
    remoteMid ++ "\",\"candidate\":\"" ++ "candidate:1 1 UDP " ++
    toString rand2 ++ " " ++ ip ++ " " ++ toString port ++ " typ host\"\x7d\x7d",
    ?_, ?_⟩
  · simp only [gen_sdp_response, String.append_assoc]
  · refine ⟨"s=-" ++ crlf ++
      "c=IN " ++ (if v6 then "IP6" else "IP4") ++ " " ++ ip ++ crlf ++
      "t=0 0" ++ crlf ++ "a=ice-lite" ++ crlf ++
      "a=ice-ufrag:" ++ uf ++ crlf ++ "a=ice-pwd:" ++ pw ++ crlf ++
      "m=application " ++ toString port ++
        " UDP/DTLS/SCTP webrtc-datachannel" ++ crlf ++
      "a=max-message-size:1160" ++ crlf ++
      "a=fingerprint:sha-256 " ++ fp ++ crlf ++
      "a=ice-options:trickle" ++ crlf ++ "a=setup:passive" ++ crlf ++
      "a=mid:" ++ remoteMid ++ crlf ++
      "a=sctpmap:" ++ toString port ++ " webrtc-datachannel 8000" ++ crlf ++
      "a=max-message-size:1160" ++ crlf ++ "a=sendrecv" ++ crlf ++
      "a=sctp-port:" ++ toString port ++ crlf ++
      "\",\"type\":\"answer\"\x7d,\"candidate\":\x7b\"sdpMLineIndex\":0,\"sdpMid\":\"" ++
      remoteMid ++ "\",\"candidate\":\"",
      ip ++ " " ++ toString port ++ " typ host\"\x7d\x7d", ?_⟩
    simp only [String.append_assoc]

/-- C6.  A datagram that parses as a STUN binding request whose username
matches no session leaves the whole server state unchanged and emits
nothing: no response, no client, no TTL refresh, no callback event. -/
theorem C6_unknown_stun_noop (env : Env) (st : ServerSt)
    (remoteAddr : SockAddr) (req : BindingRequest)
    (h : lookupA st.sessions ⟨req.serverUser, req.remoteUser⟩ = none) :
    receive_packet env st remoteAddr (Packet.stun req) = .ok (st, []) := by
  simp [receive_packet, parse_stun_binding_request, h]

/-- C6 witness: a STUN binding request with username `srv:bogus` against a
server whose only session is keyed `(srv, other)`. -/
theorem C6_witness :
    lookupA stOther.sessions ⟨"srv", "bogus"⟩ = none ∧
      receive_packet env0 stOther "1.2.3.4:5"
          (Packet.stun ⟨1, "srv", "bogus"⟩) =
        .ok (stOther, []) :=
  ⟨by decide, C6_unknown_stun_noop env0 stOther "1.2.3.4:5" ⟨1, "srv", "bogus"⟩
    (by decide)⟩

/-- C8.  `Server::send` to an address with no client, or whose client is not
`Established`, returns `SendError::ClientNotConnected` and leaves the server
state (in particular the clients and sessions maps) unchanged. -/
theorem C8_send_not_connected (env : Env) (st : ServerSt)
    (message : List Nat) (mt : MessageType) (remoteAddr : SockAddr)
    (h : Option.all (fun c => ! c.is_established)
        (lookupA st.clients remoteAddr) = true) :
    send env st message mt remoteAddr = (st, .error .clientNotConnected) := by
  rcases hL : lookupA st.clients remoteAddr with _ | c
  · simp [send, hL]
  · have hc : c.is_established = false := by
      rw [hL] at h
      simpa [Option.all] using h
    simp [send, hL, Client.send_message, hc]

/-- C8 witness: sending to the `Starting` client of `stStarting`. -/
theorem C8_witness :
    Option.all (fun c => ! c.is_established)
        (lookupA stStarting.clients "4.4.4.4:4") = true ∧
      send env0 stStarting [1, 2] MessageType.binary "4.4.4.4:4" =
        (stStarting, .error .clientNotConnected) :=
  ⟨by decide,
    C8_send_not_connected env0 stStarting [1, 2] MessageType.binary "4.4.4.4:4"
      (by decide)⟩

/-- C9.  A received datagram whose reported length exceeds
`MAX_UDP_PAYLOAD_SIZE` (1500) makes the event loop return an Io error, which
`recv()` surfaces as its result. -/
theorem C9_oversize_io (env : Env) (st : ServerSt) (len : Nat)
    (remoteAddr : SockAddr) (p : Packet) (rest : List NextEvent)
    (h1 : st.incomingRtc = []) (h2 : MAX_UDP_PAYLOAD_SIZE < len) :
    recvSteps env st (NextEvent.incomingPacket len remoteAddr p :: rest) =
      (st, .err (.io ioMsgOversize)) := by
  rw [recvSteps, h1]
  simp [process, h2]

/-- C7 counterexample.  In `ce7` all three attributes occur on terminated
lines (the abort-free loop records all three), yet `parse_sdp_fields`
returns an error instead of `Ok`: the 513-byte `a=ice-ufrag:` line is
truncated at 512 bytes through the middle of a two-byte UTF-8 character, and
the `String::from_utf8` check inside the parser aborts the whole parse. -/
theorem C7_counterexample :
    allFound (runT initSt ce7) = true ∧ parse_sdp_fields ce7 = .error () :=
  ⟨allFound_ce7, by rw [parse_eq, runParse_ce7]; rfl⟩

/-- C7 amended.  `parse_sdp_fields` returns an error whenever one of
`ice-ufrag`, `ice-pwd`, `mid` is never found on a terminated line, AND ALSO
when a found attribute's 512-byte-truncated value is not valid UTF-8 (the
parse aborts); when all three are found and no UTF-8 abort occurs, it
returns `Ok` with the three recorded values (last occurrence of each). -/
theorem C7_amended (body : List Nat) :
    (allFound (runT initSt body) = false →
      parse_sdp_fields body = .error ()) ∧
    ((runParse initSt body).isOk = true →
      allFound (runT initSt body) = true →
      ∃ u p m, (runT initSt body).found_ice_ufrag = some u ∧
        (runT initSt body).found_ice_passwd = some p ∧
        (runT initSt body).found_mid = some m ∧
        parse_sdp_fields body =
          .ok { ice_ufrag := u, ice_passwd := p, mid := m }) := by
  constructor
  · intro hf
    rw [parse_eq]
    rcases hr : runParse initSt body with e | st
    · rfl
    · have hst := runParse_ok_eq body initSt st hr
      rw [← hst] at hf
      rcases hu : st.found_ice_ufrag with _ | u <;>
        rcases hp : st.found_ice_passwd with _ | p <;>
          rcases hm : st.found_mid with _ | m <;>
            simp only [finalizeFields, hu, hp, hm] <;>
              first
                | rfl
                | (rw [allFound, hu, hp, hm] at hf; simp at hf)
  · intro hok hall
    rcases hr : runParse initSt body with e | st
    · rw [hr] at hok
      simp [Except.isOk, Except.toBool] at hok
    · have hst := runParse_ok_eq body initSt st hr
      rw [← hst] at hall ⊢
      rw [allFound] at hall
      simp only [Bool.and_eq_true, Option.isSome_iff_exists] at hall
      obtain ⟨⟨⟨u, hu⟩, p, hp⟩, m, hm⟩ := hall
      refine ⟨u, p, m, hu, hp, hm, ?_⟩
      rw [parse_eq, hr]
      simp only [finalizeFields, hu, hp, hm]

/-- C7 amended, witness: `w1` (no `mid` on any terminated line) parses to an
error; the complete offer `w2` parses to `Ok` with the three values. -/
theorem C7_witness :
    (allFound (runT initSt w1) = false ∧ parse_sdp_fields w1 = .error ()) ∧
    ((runParse initSt w2).isOk = true ∧ allFound (runT initSt w2) = true ∧
      ∃ u p m, (runT initSt w2).found_ice_ufrag = some u ∧
        (runT initSt w2).found_ice_passwd = some p ∧
        (runT initSt w2).found_mid = some m ∧
        parse_sdp_fields w2 =
          .ok { ice_ufrag := u, ice_passwd := p, mid := m }) :=
  ⟨⟨rfl, (C7_amended w1).1 rfl⟩, ⟨rfl, rfl, (C7_amended w2).2 rfl rfl⟩⟩

/-- C10.  `parse_sdp_fields` ignores an unterminated final line entirely:
appending any CR/LF-free suffix to an input changes nothing — in particular
an attribute appearing only on an unterminated final line is not
extracted. -/
theorem C10_unterminated_ignored (body extra : List Nat)
    (hex : ∀ c ∈ extra, ¬(c = 13 ∨ c = 10)) :
    parse_sdp_fields (body ++ extra) = parse_sdp_fields body := by
  rcases hr : runParse initSt body with e | st
  · have h1 : runParse initSt (body ++ extra) = .error e := by
      rw [runParse_append, hr]
    rw [parse_eq, parse_eq, h1, hr]
  · have h1 : runParse initSt (body ++ extra) = runParse st extra := by
      rw [runParse_append, hr]
    obtain ⟨lb, hlb⟩ := runT_noNL_fields extra hex st
    rw [parse_eq, parse_eq, h1, hr, runParse_noNL extra hex st, hlb]
    rfl

/-- C10 witness: an `a=mid:0` attribute on an unterminated final line is
ignored, so the offer still fails to parse. -/
theorem C10_witness :
    (∀ c ∈ strBytes "a=mid:0", ¬(c = 13 ∨ c = 10)) ∧
      parse_sdp_fields (w1 ++ strBytes "a=mid:0") = parse_sdp_fields w1 :=
  ⟨by decide, C10_unterminated_ignored w1 (strBytes "a=mid:0") (by decide)⟩

/-- C9 witness: a 1501-byte datagram on a fresh server. -/
theorem C9_witness :
    initServer.incomingRtc = [] ∧ MAX_UDP_PAYLOAD_SIZE < 1501 ∧
      recvSteps env0 initServer
          [NextEvent.incomingPacket 1501 "1.2.3.4:5" (Packet.raw [])] =
        (initServer, .err (.io ioMsgOversize)) :=
  ⟨rfl, by decide,
    C9_oversize_io env0 initServer 1501 "1.2.3.4:5" (Packet.raw []) []
      rfl (by decide)⟩

end UnreliableRtc
